import Mathlib

/-!
Verification of the capture-to-analysis bridge: the server-side request
orchestrator (`src/pages/api/reconstruct.ts`) and the client-side capture
state machine (the `Home` page component).

The server handler is embedded as a pure function from the request method,
the multipart-parse outcome, and the subprocess outcome to the observable
effects (number of subprocesses spawned, number of temp-file deletions
performed, the HTTP response emitted, if any). `JSON.parse` is abstracted
as a parameter `pjson : String → Option JsonVal`: the claims only
distinguish whether the stdout text is valid JSON (parse succeeds) and,
if so, which value it denotes.
-/

/-- A JSON value, the shape of what `JSON.parse` can return. -/
inductive JsonVal where
  | null : JsonVal
  | bool (b : Bool) : JsonVal
  | num (n : Int) : JsonVal
  | str (s : String) : JsonVal
  | arr (elems : List JsonVal) : JsonVal
  | obj (fields : List (String × JsonVal)) : JsonVal

/-- Outcome of formidable's `form.parse` callback in `parseForm`:
either the parse failed with an error (whose `.message` we record, `""`
standing for a falsy/absent message), or it succeeded and `files.image`
is either absent or a file with a `filepath`. -/
inductive FormidableResult where
  | error (msg : String) : FormidableResult
  | ok (imageFilepath : Option String) : FormidableResult

/-- `parseForm` (reconstruct.ts lines 13-23): rejects with the formidable
error, rejects with message "image missing" when `files.image` is absent,
otherwise resolves with the uploaded file's `filepath`. -/
def parseForm : FormidableResult → Except String String
  | .error m => .error m
  | .ok none => .error "image missing"
  | .ok (some fp) => .ok fp

/-- What the spawned child process does: it either starts and eventually
exits with a code and accumulated stdout/stderr, or it fails to spawn
(e.g. the executable is missing), which Node reports via an `error`
event on the child object. -/
inductive SpawnOutcome where
  | exited (code : Int) (out err : String) : SpawnOutcome
  | spawnFailure (msg : String) : SpawnOutcome

/-- The child-process events the handler registers listeners for
(reconstruct.ts lines 36-39): stdout `data`, stderr `data`, and `close`.
Notably there is no listener for the child's `error` event. -/
def childProcessListeners : List String := ["stdout.data", "stderr.data", "close"]

/-- Observable effects of one run of the API handler: how many
subprocesses it spawned, how many temp-file deletions it performed, and
the response it emitted — `none` when no response is ever written (the
request is left hanging and the failure escapes the handler). -/
structure HandlerEffects where
  spawned : Nat
  deletedTemp : Nat
  response : Option (Nat × JsonVal)

/-- The API route `handler` (reconstruct.ts lines 25-53), as a function of
the request method, the multipart-parse outcome and the subprocess
outcome.

- Non-POST methods get 405 before anything else.
- A `parseForm` rejection is caught and mapped to
  `400 \x7b error: e?.message || "Bad request" \x7d`; no subprocess runs.
- Otherwise `spawn` is called once. The handler installs listeners only
  for stdout/stderr `data` and `close` (see `childProcessListeners`): a
  spawn failure emits an `error` event that has no listener, which Node
  raises as an uncaught exception outside the handler's try/catch, so no
  response is written on that path.
- On `close`: non-zero code gives `500` with `details` = stderr; zero
  code gives `200` with the parsed stdout when it is valid JSON, else
  `500` with `details` = the raw stdout.
- No path deletes the temporary file: `fs` is imported but never used,
  and no `unlink` call appears anywhere, so `deletedTemp` is `0` on
  every path. -/
def handler (pjson : String → Option JsonVal) (method : String)
    (formRes : FormidableResult) (run : SpawnOutcome) : HandlerEffects :=
  if method ≠ "POST" then
    ⟨0, 0, some (405, .obj [("error", .str "Method not allowed")])⟩
  else
    match parseForm formRes with
    | .error m =>
        ⟨0, 0, some (400, .obj [("error", .str (if m = "" then "Bad request" else m))])⟩
    | .ok _ =>
        match run with
        | .spawnFailure _ => ⟨1, 0, none⟩
        | .exited code out err =>
            ⟨1, 0, some (
              if code ≠ 0 then
                (500, .obj [("error", .str "Python failed"), ("details", .str err)])
              else
                match pjson out with
                | some parsed => (200, parsed)
                | none =>
                    (500, .obj [("error", .str "Invalid JSON from Python"),
                                ("details", .str out)]))⟩

/-!
Client-side capture state machine (the `Home` component). The React state
hooks `streaming`, `busy`, `resultImg`, `error` form the state; `analyze`,
`captureAndAnalyze` and `onFileInput` are embedded as state
transformations parameterised by the outcome of the asynchronous steps
(snapshot encoding, the fetch round trip, response-body JSON parsing).
-/

/-- The `Home` component's React state: `streaming`, `busy`,
`resultImg` (the data URL, when present) and `error`. -/
structure ClientState where
  streaming : Bool
  busy : Bool
  resultImg : Option String
  error : Option String
  deriving Repr, DecidableEq

/-- Outcome of `res.json()` on a fetch response: either the body fails to
parse as JSON (the rejection's message recorded, `""` for falsy/absent),
or it parses to a JSON value. -/
inductive BodyOutcome where
  | jsonFailure (msg : String) : BodyOutcome
  | json (data : JsonVal) : BodyOutcome

/-- Outcome of the `fetch` round trip: a network-level rejection (its
message, `""` for falsy/absent) or a response with a status code and a
body. -/
inductive FetchOutcome where
  | networkFailure (msg : String) : FetchOutcome
  | response (status : Nat) (body : BodyOutcome) : FetchOutcome

/-- JS property access `data?.key` on a parsed JSON value: a field lookup
that yields `none` (undefined) on non-objects or missing keys. -/
def jsGet (j : JsonVal) (key : String) : Option JsonVal :=
  match j with
  | .obj fields => lookupField fields key
  | _ => none
where
  lookupField : List (String × JsonVal) → String → Option JsonVal
    | [], _ => none
    | (k, v) :: rest, key => if k = key then some v else lookupField rest key

/-- JS truthiness of `data?.key`: undefined, null, false, 0 and "" are
falsy; everything else is truthy. -/
def truthy : Option JsonVal → Bool
  | none => false
  | some .null => false
  | some (.bool b) => b
  | some (.num n) => n != 0
  | some (.str s) => s != ""
  | some (.arr _) => true
  | some (.obj _) => true

mutual
/-- JS string coercion of a JSON value, as used by the template literal
interpolating `data.reconstructed_base64` into the data URL. -/
def jsStringOf : JsonVal → String
  | .null => "null"
  | .bool b => cond b "true" "false"
  | .num n => toString n
  | .str s => s
  | .arr elems => jsArrString elems
  | .obj _ => "[object Object]"

/-- JS `Array.prototype.toString`: elements joined with commas. -/
def jsArrString : List JsonVal → String
  | [] => ""
  | [x] => jsStringOf x
  | x :: rest => jsStringOf x ++ "," ++ jsArrString rest
end

/-- The entry of `analyze` (part_000 lines 51-53): `setBusy(true)`,
`setError(null)`, `setResultImg(null)` before anything else. -/
def analyzeStart (s : ClientState) : ClientState :=
  { s with busy := true, error := none, resultImg := none }

/-- The rest of `analyze` (part_000 lines 54-70), applied to the state as
of entering the analyzing phase, given the fetch outcome:
- a fetch rejection is caught, `error := e?.message || "Failed to analyze"`;
- `!res.ok` (status outside 200-299) throws
  `Error("Server error: " + status)` before the body is ever read, and
  the catch stores that message — the response body plays no part;
- a `res.json()` rejection is caught the same way;
- on parsed data, `resultImg` is set only when `data?.reconstructed_base64`
  is truthy (the `data?.analysis` console log has no state effect);
- `finally` clears `busy`. -/
def analyzeFinish (s : ClientState) (f : FetchOutcome) : ClientState :=
  let s1 :=
    match f with
    | .networkFailure msg =>
        { s with error := some (if msg = "" then "Failed to analyze" else msg) }
    | .response status body =>
        if status < 200 ∨ 299 < status then
          { s with error := some ("Server error: " ++ toString status) }
        else
          match body with
          | .jsonFailure msg =>
              { s with error := some (if msg = "" then "Failed to analyze" else msg) }
          | .json data =>
              if truthy (jsGet data "reconstructed_base64") then
                { s with resultImg := some ("data:image/jpeg;base64," ++
                    jsStringOf ((jsGet data "reconstructed_base64").getD .null)) }
              else s
  { s1 with busy := false }

/-- `analyze` (part_000 lines 50-71) end to end. -/
def analyze (s : ClientState) (f : FetchOutcome) : ClientState :=
  analyzeFinish (analyzeStart s) f

/-- Outcome of `snapshotBlob`: a blob, or a rejection. All three rejection
sites reject with a plain string (not an Error), so in the caller's catch
`e?.message` is undefined and the surfaced message is always the
`"Capture failed"` fallback. -/
inductive SnapOutcome where
  | ok : SnapOutcome
  | failure : SnapOutcome

/-- A user action that can lead to an analysis attempt: a click on the
Capture & Analyze button (with the snapshot and fetch outcomes that would
follow), or a file-input change (with the selected file, if any, and the
fetch outcome). -/
inductive UserEvent where
  | captureClick (snap : SnapOutcome) (f : FetchOutcome) : UserEvent
  | fileSelect (file : Option String) (f : FetchOutcome) : UserEvent

/-- One user action against the `Home` component. Returns the resulting
state and `some f` exactly when an analysis HTTP request was issued (with
fetch outcome `f`), `none` when no request was issued.

- The capture button carries `disabled=\x7b!streaming || busy\x7d`
  (part_000 line 98), so a click does nothing in that case; otherwise
  `captureAndAnalyze` snapshots (a snapshot rejection is caught and sets
  `error := "Capture failed"`, no request) and then runs `analyze`.
- `onFileInput` (part_000 lines 82-86) returns early only when no file
  was selected; it performs no `busy` check before calling `analyze`. -/
def step (s : ClientState) (e : UserEvent) : ClientState × Option FetchOutcome :=
  match e with
  | .captureClick snap f =>
      if !s.streaming || s.busy then (s, none)
      else
        match snap with
        | .failure => ({ s with error := some "Capture failed" }, none)
        | .ok => (analyze s f, some f)
  | .fileSelect file f =>
      match file with
      | none => (s, none)
      | some _ => (analyze s f, some f)

/-!
Theorems about the server-side orchestrator.
-/

/-- Claim C1: for a valid single-field multipart upload the handler does
spawn exactly one subprocess, but it deletes the temporary file zero
times, not once: no path in the handler deletes it (`fs` is imported but
never used). Shown at a concrete successful run, and in general for every
method, form outcome and subprocess outcome. -/
theorem handler_spawns_one_but_never_deletes_temp :
    (handler (fun _ => none) "POST" (.ok (some "/tmp/upload.jpg"))
        (.exited 0 "x" "")).spawned = 1 ∧
    (handler (fun _ => none) "POST" (.ok (some "/tmp/upload.jpg"))
        (.exited 0 "x" "")).deletedTemp = 0 ∧
    ∀ (pjson : String → Option JsonVal) (method : String)
      (formRes : FormidableResult) (run : SpawnOutcome),
      (handler pjson method formRes run).deletedTemp = 0 := by
  refine ⟨rfl, rfl, ?_⟩
  intro pjson method formRes run
  by_cases hm : method = "POST"
  · subst hm
    cases formRes with
    | error m => simp [handler, parseForm]
    | ok o =>
        cases o with
        | none => simp [handler, parseForm]
        | some fp => cases run <;> simp [handler, parseForm]
  · simp [handler, hm]

/-- Claim C2: a non-zero exit code yields a 500 response whose `details`
equals the accumulated stderr, and the response does not depend on the
accumulated stdout. -/
theorem handler_nonzero_exit_is_500_with_stderr
    (pjson : String → Option JsonVal) (fp out err : String) (code : Int)
    (h : code ≠ 0) :
    (handler pjson "POST" (.ok (some fp)) (.exited code out err)).response =
      some (500, .obj [("error", .str "Python failed"), ("details", .str err)]) ∧
    ∀ out2 : String,
      handler pjson "POST" (.ok (some fp)) (.exited code out2 err) =
        handler pjson "POST" (.ok (some fp)) (.exited code out err) := by
  constructor
  · simp [handler, parseForm, h]
  · intro out2
    simp [handler, parseForm, h]

/-- Witness for C2 at exit code 1, stderr "boom". -/
theorem handler_nonzero_exit_is_500_with_stderr_witness :
    (1 : Int) ≠ 0 ∧
    (handler (fun _ => none) "POST" (.ok (some "/tmp/u.jpg"))
        (.exited 1 "ignored stdout" "boom")).response =
      some (500, .obj [("error", .str "Python failed"), ("details", .str "boom")]) :=
  ⟨by decide,
   (handler_nonzero_exit_is_500_with_stderr (fun _ => none) "/tmp/u.jpg"
     "ignored stdout" "boom" 1 (by decide)).1⟩

/-- Claim C3: a zero exit code whose stdout is not valid JSON yields a
500 response whose `details` equals the raw stdout. -/
theorem handler_invalid_json_is_500_with_stdout
    (pjson : String → Option JsonVal) (fp out err : String)
    (h : pjson out = none) :
    (handler pjson "POST" (.ok (some fp)) (.exited 0 out err)).response =
      some (500, .obj [("error", .str "Invalid JSON from Python"),
                       ("details", .str out)]) := by
  simp [handler, parseForm, h]

/-- Witness for C3 on the stdout text "oops" with a parse that rejects it. -/
theorem handler_invalid_json_is_500_with_stdout_witness :
    (fun _ => (none : Option JsonVal)) "oops" = none ∧
    (handler (fun _ => none) "POST" (.ok (some "/tmp/u.jpg"))
        (.exited 0 "oops" "")).response =
      some (500, .obj [("error", .str "Invalid JSON from Python"),
                       ("details", .str "oops")]) :=
  ⟨rfl, handler_invalid_json_is_500_with_stdout (fun _ => none) "/tmp/u.jpg" "oops" "" rfl⟩

/-- Claim C4: a zero exit code whose stdout parses as JSON yields a 200
response whose body is exactly the parsed value, whatever its shape. -/
theorem handler_valid_json_is_200_passthrough
    (pjson : String → Option JsonVal) (fp out err : String) (j : JsonVal)
    (h : pjson out = some j) :
    (handler pjson "POST" (.ok (some fp)) (.exited 0 out err)).response =
      some (200, j) := by
  simp [handler, parseForm, h]

/-- Witness for C4 on a JSON object with no `reconstructed_base64` field:
the empty object is passed through unchanged with status 200. -/
theorem handler_valid_json_is_200_passthrough_witness :
    (fun _ => some (JsonVal.obj [])) "\x7b\x7d" = some (JsonVal.obj []) ∧
    (handler (fun _ => some (JsonVal.obj [])) "POST" (.ok (some "/tmp/u.jpg"))
        (.exited 0 "\x7b\x7d" "")).response = some (200, JsonVal.obj []) :=
  ⟨rfl, handler_valid_json_is_200_passthrough (fun _ => some (JsonVal.obj []))
    "/tmp/u.jpg" "\x7b\x7d" "" (JsonVal.obj []) rfl⟩

/-- Claim C6 counterexample: a request that reaches the spawn stage and
whose subprocess fails to spawn gets no response at all — the child's
`error` event has no registered listener, so the failure escapes as an
unhandled fault instead of a structured JSON error response. -/
theorem spawn_failure_is_unhandled :
    (handler (fun _ => none) "POST" (.ok (some "/tmp/u.jpg"))
        (.spawnFailure "spawn python3 ENOENT")).response = none ∧
    "error" ∉ childProcessListeners := by
  exact ⟨rfl, by decide⟩

/-- Claim C6 (amended): every failure other than a subprocess spawn
failure is recovered into a structured response — whenever the child
process actually runs and exits, the handler emits a response on every
method, parse outcome, exit code and output. -/
theorem handler_responds_whenever_child_exits
    (pjson : String → Option JsonVal) (method : String)
    (formRes : FormidableResult) (code : Int) (out err : String) :
    (handler pjson method formRes (.exited code out err)).response.isSome = true := by
  by_cases hm : method = "POST"
  · subst hm
    cases formRes with
    | error m => simp [handler, parseForm]
    | ok o =>
        cases o with
        | none => simp [handler, parseForm]
        | some fp => simp [handler, parseForm]
  · simp [handler, hm]

/-- Claim C7: a POST whose multipart body is malformed (formidable
error) or lacks the `image` field is answered with 400 carrying the
error's message (or the "Bad request" fallback, or "image missing"
respectively), and no subprocess is spawned. -/
theorem handler_parse_failure_is_400_no_spawn
    (pjson : String → Option JsonVal) (run : SpawnOutcome) (m : String) :
    handler pjson "POST" (.error m) run =
      ⟨0, 0, some (400, .obj [("error",
          .str (if m = "" then "Bad request" else m))])⟩ ∧
    handler pjson "POST" (.ok none) run =
      ⟨0, 0, some (400, .obj [("error", .str "image missing")])⟩ :=
  ⟨rfl, rfl⟩

/-!
Theorems about the client-side capture state machine.
-/

/-- Claim C5 counterexample: with an analysis in flight (`busy = true`),
selecting a local file issues a second analysis request — `onFileInput`
performs no `busy` check, so the file-selection path is not gated. -/
theorem file_select_while_busy_starts_request :
    (⟨true, true, none, none⟩ : ClientState).busy = true ∧
    ((step ⟨true, true, none, none⟩
        (.fileSelect (some "photo.jpg") (.networkFailure "offline"))).2).isSome = true :=
  ⟨rfl, rfl⟩

/-- Claim C5 (amended): while `busy` is true the capture action cannot
start an analysis request — the button is disabled, so a click leaves the
state unchanged and issues no request. The file-selection path carries no
such gate. -/
theorem capture_click_gated_by_busy
    (s : ClientState) (snap : SnapOutcome) (f : FetchOutcome)
    (h : s.busy = true) :
    step s (.captureClick snap f) = (s, none) := by
  simp [step, h]

/-- Witness for the amended C5 at a busy streaming state. -/
theorem capture_click_gated_by_busy_witness :
    (⟨true, true, none, none⟩ : ClientState).busy = true ∧
    step ⟨true, true, none, none⟩ (.captureClick .ok (.networkFailure "offline")) =
      (⟨true, true, none, none⟩, none) :=
  ⟨rfl, capture_click_gated_by_busy ⟨true, true, none, none⟩ .ok
    (.networkFailure "offline") rfl⟩

/-- Claim C8: every user action that actually initiates an analysis
passes through the entry of `analyze`, which clears the previous error
and result before anything else; the resulting state is that entry state
run through the rest of `analyze`. -/
theorem analysis_entry_clears_stale_state
    (s : ClientState) (e : UserEvent) (f : FetchOutcome)
    (h : (step s e).2 = some f) :
    (step s e).1 = analyzeFinish (analyzeStart s) f ∧
    (analyzeStart s).error = none ∧
    (analyzeStart s).resultImg = none ∧
    (analyzeStart s).busy = true := by
  refine ⟨?_, rfl, rfl, rfl⟩
  cases e with
  | captureClick snap f2 =>
      by_cases hg : (!s.streaming || s.busy) = true
      · simp [step, hg] at h
      · cases snap with
        | failure => simp [step, hg] at h
        | ok =>
            have hs : step s (.captureClick .ok f2) = (analyze s f2, some f2) := by
              simp [step, hg]
            rw [hs] at h ⊢
            simp at h
            subst h
            rfl
  | fileSelect file f2 =>
      cases file with
      | none => simp [step] at h
      | some name =>
          simp [step] at h
          subst h
          rfl

/-- Witness for C8: a file selection from a state holding a stale result
and a stale error. -/
theorem analysis_entry_clears_stale_state_witness :
    (step ⟨true, false, some "stale-img", some "stale-error"⟩
        (.fileSelect (some "a.jpg") (.networkFailure "down"))).2 =
      some (.networkFailure "down") ∧
    ((step ⟨true, false, some "stale-img", some "stale-error"⟩
        (.fileSelect (some "a.jpg") (.networkFailure "down"))).1 =
      analyzeFinish (analyzeStart ⟨true, false, some "stale-img", some "stale-error"⟩)
        (.networkFailure "down") ∧
    (analyzeStart (⟨true, false, some "stale-img", some "stale-error"⟩ : ClientState)).error = none ∧
    (analyzeStart (⟨true, false, some "stale-img", some "stale-error"⟩ : ClientState)).resultImg = none ∧
    (analyzeStart (⟨true, false, some "stale-img", some "stale-error"⟩ : ClientState)).busy = true) :=
  ⟨rfl, analysis_entry_clears_stale_state ⟨true, false, some "stale-img", some "stale-error"⟩
    (.fileSelect (some "a.jpg") (.networkFailure "down")) (.networkFailure "down") rfl⟩

/-- Claim C9: a 2xx response whose parsed JSON body lacks the
`reconstructed_base64` field leaves the client with no error and no
result image (and `busy` cleared): absence of the field is not an error. -/
theorem ok_response_without_reconstruction_is_not_error
    (s : ClientState) (status : Nat) (data : JsonVal)
    (h200 : 200 ≤ status) (h299 : status ≤ 299)
    (hfield : jsGet data "reconstructed_base64" = none) :
    (analyze s (.response status (.json data))).error = none ∧
    (analyze s (.response status (.json data))).resultImg = none ∧
    (analyze s (.response status (.json data))).busy = false := by
  have hok : ¬(status < 200 ∨ 299 < status) := by omega
  simp [analyze, analyzeStart, analyzeFinish, hok, hfield, truthy]

/-- Witness for C9: a 200 response whose body carries only an `analysis`
field. -/
theorem ok_response_without_reconstruction_is_not_error_witness :
    200 ≤ 200 ∧ 200 ≤ 299 ∧
    jsGet (.obj [("analysis", .obj [])]) "reconstructed_base64" = none ∧
    ((analyze ⟨true, false, some "old", some "old-error"⟩
        (.response 200 (.json (.obj [("analysis", .obj [])])))).error = none ∧
     (analyze ⟨true, false, some "old", some "old-error"⟩
        (.response 200 (.json (.obj [("analysis", .obj [])])))).resultImg = none ∧
     (analyze ⟨true, false, some "old", some "old-error"⟩
        (.response 200 (.json (.obj [("analysis", .obj [])])))).busy = false) :=
  ⟨by decide, by decide, rfl,
   ok_response_without_reconstruction_is_not_error
     ⟨true, false, some "old", some "old-error"⟩ 200 (.obj [("analysis", .obj [])])
     (by decide) (by decide) rfl⟩

/-- Claim C10: on a non-2xx response the surfaced error message is
exactly "Server error: " followed by the decimal status code, and the
final state does not depend on the response body at all — the body is
never consulted on this path. -/
theorem non_2xx_error_from_status_alone
    (s : ClientState) (status : Nat) (body : BodyOutcome)
    (h : status < 200 ∨ 299 < status) :
    (analyze s (.response status body)).error =
      some ("Server error: " ++ toString status) ∧
    ∀ body2 : BodyOutcome,
      analyze s (.response status body2) = analyze s (.response status body) := by
  constructor
  · simp [analyze, analyzeStart, analyzeFinish, h]
  · intro body2
    simp [analyze, analyzeStart, analyzeFinish, h]

/-- Witness for C10 at status 500 with a body the server would send. -/
theorem non_2xx_error_from_status_alone_witness :
    ((500 : Nat) < 200 ∨ 299 < (500 : Nat)) ∧
    (analyze ⟨true, false, none, none⟩
        (.response 500 (.json (.obj [("error", .str "Python failed"),
                                     ("details", .str "boom")])))).error =
      some ("Server error: " ++ toString (500 : Nat)) :=
  ⟨by decide,
   (non_2xx_error_from_status_alone ⟨true, false, none, none⟩ 500
     (.json (.obj [("error", .str "Python failed"), ("details", .str "boom")]))
     (by decide)).1⟩
